import Mathlib

set_option maxRecDepth 20000

set_option exponentiation.threshold 1100

/-!
Verification of the threads-scraper repository (scripts/threads_scraper.py and
scripts/generate_report.py) against its natural-language specification.

Shallow embedding conventions:
* Text is modelled as `Str := List Char` (Python/JS strings as character
  sequences; JS counts UTF-16 units and Python counts code points, which agree
  on the concrete inputs used here).
* The browser is external input: a run of the scraper is parameterised by the
  page data the browser would return (inner texts of matched elements, the
  final page URL, the page title, the serialized HTML, the sequence of
  measured page heights).
* Machine integers do not occur; Python integers are unbounded, modelled by
  `Int` / `Nat`.
-/

/-- Strings of the scripts, as character lists. -/
abbrev Str := List Char

/-- JavaScript `String.prototype.trim` / stripping whitespace on both ends
(used on `el.innerText?.trim()` in `extract_content`). -/
def trimStr (s : Str) : Str :=
  ((s.dropWhile Char.isWhitespace).reverse.dropWhile Char.isWhitespace).reverse

/-!
## scroll_for_content (threads_scraper.py lines 69-83)

```
prev_height = -1
for i in range(max_scrolls):
    await page.evaluate("window.scrollTo(0, document.body.scrollHeight)")
    await page.wait_for_timeout(pause_ms)
    new_height = await page.evaluate("document.body.scrollHeight")
    if new_height == prev_height:
        break
    prev_height = new_height
```

The page's behaviour is the external sequence `h : Nat → Int`, where `h i` is
the height measured during the loop iteration with index `i` (measurement
happens after the scroll of that iteration).  Each iteration entered performs
exactly one scroll and one measurement, so the number of iterations run equals
the number of scrolls performed.  `scrollGo fuel prev i` returns the total
number of iterations run, given `fuel` remaining iterations, the current
`prev_height` and the index `i` of the next iteration.
-/

def scrollGo (h : Nat → Int) : Nat → Int → Nat → Nat
  | 0, _, i => i
  | fuel + 1, prev, i => if h i = prev then i + 1 else scrollGo h fuel (h i) (i + 1)

/-- Number of loop iterations (= scrolls performed = heights measured) of
`scroll_for_content` for height sequence `h` and budget `maxScrolls`. -/
def scroll_for_content (h : Nat → Int) (maxScrolls : Nat) : Nat :=
  scrollGo h maxScrolls (-1) 0

/-- The `prev_height` value held at the start of iteration `i`, assuming no
earlier break: `-1` initially, afterwards the previous measurement. -/
def prevOf (h : Nat → Int) : Nat → Int
  | 0 => -1
  | i + 1 => h i

/-- The spec example's height sequence [1000, 2000, 2000, ...]. -/
def c5Heights : Nat → Int := fun i => if i = 0 then 1000 else 2000

/-- A height sequence whose first repetition is only observed at the very last
iteration of a budget of 3: measurements 1, 2, 2. -/
def c5HeightsLate : Nat → Int := fun i => if i = 0 then 1 else 2

/-!
## extract_content (threads_scraper.py lines 85-115)

The page-side script collects, in document order, the trimmed inner text of
every `[data-pressable-container]` element, keeps the ones longer than 10
characters, truncates each to its first 500 characters, and takes the first
50.  The function's other outputs are the page URL, title, UTC timestamp and
the length of the serialized HTML.
-/

structure Extracted where
  url : Str
  title : Str
  scraped_at : Str
  posts_count : Nat
  posts : List Str
  html_length : Nat

def extract_content (innerTexts : List Str) (pageUrl pageTitle html scrapedAt : Str) :
    Extracted :=
  let content :=
    (((innerTexts.map trimStr).filter fun t => 10 < t.length).map fun t => t.take 500).take 50
  { url := pageUrl, title := pageTitle, scraped_at := scrapedAt,
    posts_count := content.length, posts := content, html_length := html.length }

/-!
## main (threads_scraper.py lines 117-207)

The record written to output/threads_<ts>.json and output/latest.json.  A
field that the Python dict does not contain is `none`.
-/

structure CrawlResult where
  url : Str
  title : Option Str
  scraped_at : Str
  status : Str
  posts : Option (List Str)
  posts_count : Option Nat
  html_length : Option Nat
  error : Option Str

/-- Outcome of the browser session: either the page data needed by
`extract_content`, or an exception.  `finalPageUrl` in the `err` case records
where the browser actually ended up (after redirects); the code does not read
it when building the error record. -/
inductive FetchOutcome where
  | ok (pageUrl pageTitle html scrapedAt : Str) (innerTexts : List Str)
  | err (finalPageUrl : Str) (message : Str)

/-- The CrawlResult `main` builds: on success, `extract_content`'s dict plus
`status = "success"`; on any exception, a fresh dict with `CONFIG['url']`,
a timestamp, `status = "error"` and the exception's message. -/
def mainData (cfgUrl errTime : Str) : FetchOutcome → CrawlResult
  | .ok u t h s texts =>
      let e := extract_content texts u t h s
      { url := e.url, title := some e.title, scraped_at := e.scraped_at,
        status := "success".data, posts := some e.posts,
        posts_count := some e.posts_count, html_length := some e.html_length,
        error := none }
  | .err _ msg =>
      { url := cfgUrl, title := none, scraped_at := errTime,
        status := "error".data, posts := none, posts_count := none,
        html_length := none, error := some msg }

/-- `exit(0 if result.get('status') == 'success' else 1)` (line 207). -/
def exitCode (r : CrawlResult) : Nat :=
  if r.status = "success".data then 0 else 1

/-!
## Theorems about the Fetcher
-/

/-- Claim C1: every record produced by `extract_content` satisfies
`posts_count = len(posts)`, `len(posts) ≤ 50`, and every entry has length at
most 500 characters. -/
theorem c1_extract_invariants (texts : List Str) (u t h s : Str) :
    (extract_content texts u t h s).posts_count =
        (extract_content texts u t h s).posts.length ∧
    (extract_content texts u t h s).posts.length ≤ 50 ∧
    ∀ p ∈ (extract_content texts u t h s).posts, p.length ≤ 500 := by
  refine ⟨rfl, ?_, ?_⟩
  · simp only [extract_content]
    apply List.length_take_le
  · intro p hp
    simp only [extract_content] at hp
    have hp2 := List.take_subset 50 _ hp
    rcases List.mem_map.mp hp2 with ⟨a, _, rfl⟩
    apply List.length_take_le

/-- Witness for C1 at a concrete input: a single 20-character element text. -/
theorem c1_extract_invariants_witness :
    (extract_content [List.replicate 20 'a'] [] [] [] []).posts_count =
        (extract_content [List.replicate 20 'a'] [] [] [] []).posts.length ∧
    (extract_content [List.replicate 20 'a'] [] [] [] []).posts.length ≤ 50 ∧
    (List.replicate 20 'a').length ≤ 500 := by
  obtain ⟨h1, h2, h3⟩ := c1_extract_invariants [List.replicate 20 'a'] [] [] [] []
  exact ⟨h1, h2, h3 (List.replicate 20 'a') (by decide)⟩

/-- Counterexample to claim C2 as stated: the error branch stores the
exception's message verbatim (`'error': str(e)`), and an exception with an
empty message (for example `Exception()`) yields a record with `status =
"error"` whose `error` field is present but empty, contradicting "the error
field is ... non-empty". -/
theorem c2_counterexample :
    (mainData "u".data "t".data (.err "f".data [])).status = "error".data ∧
    (mainData "u".data "t".data (.err "f".data [])).error = some [] :=
  ⟨rfl, rfl⟩

/-- Claim C2 amended: if `status = "error"` then `error` is present (it is the
exception's message, which the code does not guarantee to be non-empty) and
`posts` is absent; if `status = "success"` then `error` is absent. -/
theorem c2_amended (cfg tm : Str) (o : FetchOutcome) :
    ((mainData cfg tm o).status = "error".data →
        (mainData cfg tm o).error.isSome ∧ (mainData cfg tm o).posts = none) ∧
    ((mainData cfg tm o).status = "success".data →
        (mainData cfg tm o).error = none) := by
  cases o with
  | ok u t h s texts =>
      refine ⟨fun hc => ?_, fun _ => rfl⟩
      have hc2 : "success".data = "error".data := hc
      exact absurd hc2 (by decide)
  | err fu msg =>
      refine ⟨fun _ => ⟨rfl, rfl⟩, fun hc => ?_⟩
      have hc2 : "error".data = "success".data := hc
      exact absurd hc2 (by decide)

/-- Witness for C2 (amended) at a concrete error outcome. -/
theorem c2_amended_witness :
    (mainData "u".data "t".data (.err "f".data "boom".data)).error.isSome ∧
    (mainData "u".data "t".data (.err "f".data "boom".data)).posts = none :=
  (c2_amended "u".data "t".data (.err "f".data "boom".data)).1 rfl

/-- `scrollGo` runs at most `fuel` further iterations. -/
theorem scrollGo_le (h : Nat → Int) :
    ∀ fuel prev i, scrollGo h fuel prev i ≤ i + fuel := by
  intro fuel
  induction fuel with
  | zero => intro prev i; simp [scrollGo]
  | succ n ih =>
      intro prev i
      unfold scrollGo
      by_cases hb : h i = prev
      · rw [if_pos hb]; omega
      · rw [if_neg hb]
        have := ih (h i) (i + 1)
        omega

/-- Claim C4: for every height sequence and every `max_scrolls`, the scroll
loop runs at most `max_scrolls` iterations and terminates (the function is
total). -/
theorem c4_scroll_bounded (h : Nat → Int) (m : Nat) :
    scroll_for_content h m ≤ m := by
  simpa [scroll_for_content] using scrollGo_le h m (-1) 0

/-- If two consecutive measurements `h j` and `h (j+1)` agree, the loop stops
no later than iteration `j + 2` (provided `prev` tracks the previous
measurement, which `prevOf` expresses). -/
theorem scrollGo_early (h : Nat → Int) (j : Nat) (hj : h (j + 1) = h j) :
    ∀ fuel i, i ≤ j + 1 → j + 2 ≤ i + fuel →
      scrollGo h fuel (prevOf h i) i ≤ j + 2 := by
  intro fuel
  induction fuel with
  | zero => intro i hi hf; omega
  | succ n ih =>
      intro i hi hf
      unfold scrollGo
      by_cases hb : h i = prevOf h i
      · rw [if_pos hb]; omega
      · rw [if_neg hb]
        have hii : i ≠ j + 1 := by
          intro he
          subst he
          exact hb (by simpa [prevOf] using hj)
        have h1 : i + 1 ≤ j + 1 := by omega
        have := ih (i + 1) h1 (by omega)
        simpa [prevOf] using this

/-- Counterexample to claim C5 as stated: on the spec's own example (heights
1000, 2000, 2000, budget 5) the loop runs 3 iterations and each iteration
performs exactly one scroll before measuring, so 3 scrolls are performed, not
2 (the code even prints "Content loaded after 3 scrolls").  Moreover, an
equality of consecutive measurements does not always end the loop before
`max_scrolls`: with measurements 1, 2, 2 and budget 3 the loop runs all 3
iterations. -/
theorem c5_counterexample :
    scroll_for_content c5Heights 5 = 3 ∧
    scroll_for_content c5Heights 5 ≠ 2 ∧
    scroll_for_content c5HeightsLate 3 = 3 := by
  refine ⟨rfl, by decide, rfl⟩

/-- Claim C5 amended: the loop stops before `max_scrolls` whenever two
consecutive measurements `h j = h (j+1)` occur with `j + 2 < max_scrolls`;
on heights [1000, 2000, 2000] with budget 5 it stops after 3 iterations
(3 scrolls performed, one per iteration), the third measurement equalling the
second. -/
theorem c5_amended :
    (∀ (h : Nat → Int) (m j : Nat), h (j + 1) = h j → j + 2 < m →
        scroll_for_content h m < m) ∧
    scroll_for_content c5Heights 5 = 3 ∧ c5Heights 2 = c5Heights 1 := by
  refine ⟨?_, rfl, rfl⟩
  intro h m j hj hm
  have := scrollGo_early h j hj m 0 (by omega) (by omega)
  have h0 : scrollGo h m (prevOf h 0) 0 = scroll_for_content h m := rfl
  omega

/-- Witness for C5 (amended): instantiating the universal part on the example
sequence with `j = 1` shows early termination within budget 5. -/
theorem c5_amended_witness : scroll_for_content c5Heights 5 < 5 :=
  c5_amended.1 c5Heights 5 1 rfl (by omega)

/-- Counterexample to claim C6 as stated: when the run fails, the code stores
`CONFIG['url']` (the configured target), not the page's final navigated URL.
With target "cfg" and a browser that ended at "final", the error record's
`url` is "cfg". -/
theorem c6_counterexample :
    (mainData "cfg".data "t".data (.err "final".data "m".data)).url =
        "cfg".data ∧
    "cfg".data ≠ "final".data :=
  ⟨rfl, by decide⟩

/-- Claim C6 amended: on success the record's `url` is the page's final
navigated URL (`page.url` read in `extract_content`); on error it is the
configured target URL, regardless of where the browser actually ended up. -/
theorem c6_amended (cfg tm u t h s : Str) (texts : List Str) (fu msg : Str) :
    (mainData cfg tm (.ok u t h s texts)).url = u ∧
    (mainData cfg tm (.err fu msg)).url = cfg :=
  ⟨rfl, rfl⟩

/-- Claim C8: the process exit code is 0 exactly when the produced record has
`status = "success"`, and is always 0 or 1. -/
theorem c8_exit_code (cfg tm : Str) (o : FetchOutcome) :
    (exitCode (mainData cfg tm o) = 0 ↔
        (mainData cfg tm o).status = "success".data) ∧
    (exitCode (mainData cfg tm o) = 0 ∨ exitCode (mainData cfg tm o) = 1) := by
  cases o with
  | ok u t h s texts =>
      exact ⟨⟨fun _ => rfl, fun _ => rfl⟩, Or.inl rfl⟩
  | err fu msg =>
      have h1 : exitCode (mainData cfg tm (.err fu msg)) = 1 := rfl
      refine ⟨⟨fun hc => ?_, fun hs => ?_⟩, Or.inr h1⟩
      · omega
      · have hs2 : "error".data = "success".data := hs
        exact absurd hs2 (by decide)

/-!
## generate_report.py: JSON values and Jinja template rendering

`generate_reports` loads `output/latest.json` (a JSON object), adds a `date`
field, applies `setdefault` for `posts`, `posts_count`, `html_length`,
`status`, and renders the HTML and Markdown templates with `**data`.

JSON numbers are modelled as integers (every number occurring in the claims
is one).  For the raise/no-raise analysis the one place where a number's
magnitude matters is modelled explicitly: CPython raises `OverflowError` on
`int / 1024` once the quotient exceeds double range (see `divOverflowBound`).
A JSON object is a key-ordered association list; `json.load` produces
key-unique dicts, and all lookups below go through the same `getD`, so
duplicate keys cannot make the development inconsistent with itself.
-/

inductive Json where
  | null
  | bool (b : Bool)
  | num (n : Int)
  | str (s : Str)
  | arr (elems : List Json)
  | obj (fields : List (Str × Json))

abbrev Fields := List (Str × Json)

/-- The single-quote character, used by Python repr of strings. -/
def quoteChar : Char := Char.ofNat 39

mutual

/-- Python `str()` of a JSON-like value, as used by Jinja `{{ ... }}` output
(string escaping inside nested repr is simplified: quotes/backslashes inside
strings are not escaped; no claim evaluates that case). -/
def pyStr : Json → Str
  | .null => "None".data
  | .bool true => "True".data
  | .bool false => "False".data
  | .num n => (toString n).data
  | .str s => s
  | .arr xs => '[' :: (List.intercalate ", ".data (pyReprList xs) ++ [']'])
  | .obj fs => "\x7b".data ++ List.intercalate ", ".data (pyReprFields fs) ++ "\x7d".data

/-- Python `repr()` of a JSON-like value (element form inside containers). -/
def pyRepr : Json → Str
  | .null => "None".data
  | .bool true => "True".data
  | .bool false => "False".data
  | .num n => (toString n).data
  | .str s => quoteChar :: (s ++ [quoteChar])
  | .arr xs => '[' :: (List.intercalate ", ".data (pyReprList xs) ++ [']'])
  | .obj fs => "\x7b".data ++ List.intercalate ", ".data (pyReprFields fs) ++ "\x7d".data

def pyReprList : List Json → List Str
  | [] => []
  | x :: xs => pyRepr x :: pyReprList xs

def pyReprFields : List (Str × Json) → List Str
  | [] => []
  | (k, v) :: fs => (pyRepr (.str k) ++ ": ".data ++ pyRepr v) :: pyReprFields fs

end

/-- Field keys of the record used by generate_report.py. -/
def kdate : Str := "date".data

def kposts : Str := "posts".data

def kcount : Str := "posts_count".data

def khtml : Str := "html_length".data

def kstatus : Str := "status".data

def kurl : Str := "url".data

def kscraped : Str := "scraped_at".data

def kself : Str := "self".data

/-- Python dict lookup (`data[k]` / `data.get(k)`): first match (dicts are
key-unique). -/
def getD : Fields → Str → Option Json
  | [], _ => none
  | (k, v) :: rest, key => if k = key then some v else getD rest key

/-- Python dict assignment `data[k] = v`. -/
def setField : Fields → Str → Json → Fields
  | [], k, v => [(k, v)]
  | (k0, v0) :: rest, k, v =>
      if k0 = k then (k0, v) :: rest else (k0, v0) :: setField rest k v

/-- Python `data.setdefault(k, v)`. -/
def setdefault (d : Fields) (k : Str) (v : Json) : Fields :=
  match getD d k with
  | some _ => d
  | none => d ++ [(k, v)]

/-- generate_reports lines 113-117: `data['date'] = ...` followed by the four
`setdefault` calls, in program order. -/
def withDefaults (date : Str) (d : Fields) : Fields :=
  setdefault
    (setdefault
      (setdefault
        (setdefault (setField d kdate (.str date)) kposts (.arr []))
        kcount (.num 0))
      khtml (.num 0))
    kstatus (.str "unknown".data)

/-- Jinja `{{ x }}` output for a variable: `str()` of the value, and the empty
string when the variable is undefined (default `Undefined.__str__`). -/
def jinjaStr (d : Fields) (k : Str) : Str :=
  match getD d k with
  | some v => pyStr v
  | none => []

/-- Jinja `status == 'success'` (Python `==`; false for non-strings and for
undefined, never raising). -/
def isJsonStrEq (v : Option Json) (s : Str) : Bool :=
  match v with
  | some (.str t) => t = s
  | _ => false

/-- `str(m / 10)` for nonnegative tenths `m`. -/
def tenthsStrNat (m : Nat) : Str :=
  (toString (m / 10)).data ++ '.' :: (toString (m % 10)).data

/-- `str(m / 10)` for the one-decimal float `m / 10` (`m : Int` the number of
tenths), covering Python's `-0.0` case.  Exponent notation for huge values
(`abs >= 1e16`) is not modelled; no claim reaches it. -/
def tenthsStr (m : Int) (neg : Bool) : Str :=
  if m = 0 ∧ neg then "-0.0".data
  else if m < 0 then '-' :: tenthsStrNat (-m).toNat
  else tenthsStrNat m.toNat

/-- Jinja `(h / 1024) | round(1)` rendered by `str()`, for integer `h`.
Binary division by 1024 is exact in double precision (for `abs h < 2 ^ 53`),
and CPython's `round(x, 1)` rounds the exact value to the nearest multiple of
1/10 with ties to even, which is computed here on exact rationals:
`h / 1024` in tenths is `h * 10 / 1024`. -/
def round1KB (h : Int) : Str :=
  let t := h * 10
  let q := t.fdiv 1024
  let r := t.fmod 1024
  let m := if 2 * r < 1024 then q
           else if 1024 < 2 * r then q + 1
           else if q.fmod 2 = 0 then q else q + 1
  tenthsStr m (h < 0)

/-- CPython `int.__truediv__` overflow threshold for division by 1024:
`h / 1024` raises `OverflowError` exactly when the quotient, correctly
rounded to nearest double (ties to even), reaches `2 ^ 1024`.  The rounding
boundary is the midpoint `2 ^ 1024 - 2 ^ 970` between the largest finite
double `(2 ^ 53 - 1) * 2 ^ 971` and `2 ^ 1024` (the tie goes to the even
side, i.e. overflows), so the division raises iff
`abs h / 1024 >= 2 ^ 1024 - 2 ^ 970`, that is `abs h >= 2 ^ 1034 - 2 ^ 980`
(about 1.8e311). -/
def divOverflowBound : Nat := 2 ^ 1034 - 2 ^ 980

/-- The `{{ (html_length / 1024) | round(1) }}` expression: raises (returns
`none`) unless the value is a number small enough for the division to fit a
double (see `divOverflowBound`; Python bools divide as 0/1); an absent field
would be Jinja `Undefined`, whose division raises `UndefinedError`. -/
def pyDivRound1 : Option Json → Option Str
  | some (.num n) =>
      if n.natAbs < divOverflowBound then some (round1KB n) else none
  | some (.bool b) => some (round1KB (if b then 1 else 0))
  | _ => none

/-- `posts[:n]` followed by iteration: a string slices to a string and
iterates as 1-character strings; a list slices to a list; anything else
(including `Undefined` for an absent field) raises. -/
def sliceOpt : Option Json → Nat → Option (List Json)
  | some (.str s), n => some ((s.take n).map fun c => Json.str [c])
  | some (.arr xs), n => some (xs.take n)
  | _, _ => none

/-- Jinja `x | length` (`len()`): defined for strings, lists and dicts. -/
def lenOpt : Option Json → Option Nat
  | some (.str s) => some s.length
  | some (.arr xs) => some xs.length
  | some (.obj fs) => some fs.length
  | _ => none

/-- One rendered post: `{{ post[:L] }}{% if post|length > L %}...{% endif %}`.
Slicing raises unless the entry is a string or a list. -/
def truncPost (lim : Nat) : Json → Option Str
  | .str s => some (s.take lim ++ if lim < s.length then "...".data else [])
  | .arr xs => some (pyStr (.arr (xs.take lim)) ++ if lim < xs.length then "...".data else [])
  | _ => none

/-- The template's post loop over the (already sliced) entries. -/
def renderPosts (lim : Nat) : List Json → Option (List Str)
  | [] => some []
  | p :: rest =>
      match truncPost lim p with
      | none => none
      | some s =>
          match renderPosts lim rest with
          | none => none
          | some l => some (s :: l)

/-!
## The two templates and generate_reports

`render(**data)` is a Python call of the bound method
`Template.render(self, *args, **kwargs)`: a data key named "self" collides
with the bound `self` argument and raises `TypeError` before any template
evaluation; every other key is passed through.  Rendering then evaluates the
template expressions in textual order; the structures below record the value
substituted at each placeholder (the surrounding literal template text is
fixed and carries no information).
-/

structure HtmlReport where
  date : Str
  scraped_at : Str
  statusSuccess : Bool
  statusText : Str
  postsCountText : Str
  pageSizeText : Str
  postItems : List Str
  morePosts : Option Nat

structure MdReport where
  date : Str
  url : Str
  statusText : Str
  postsCountText : Str
  pageSizeText : Str
  scraped_at : Str
  postItems : List Str

/-- Rendering of HTML_TEMPLATE with `**d`; `none` means a raised exception.
Raise points in template order: the `self` key collision, the
`html_length / 1024` division, `posts[:20]`, each `post[:300]` of the first
20 entries, and `posts | length`. -/
def renderHtml (d : Fields) : Option HtmlReport :=
  if (getD d kself).isSome then none else
  match pyDivRound1 (getD d khtml) with
  | none => none
  | some kb =>
      match sliceOpt (getD d kposts) 20 with
      | none => none
      | some ps =>
          match renderPosts 300 ps with
          | none => none
          | some items =>
              match lenOpt (getD d kposts) with
              | none => none
              | some n =>
                  some { date := jinjaStr d kdate,
                         scraped_at := jinjaStr d kscraped,
                         statusSuccess := isJsonStrEq (getD d kstatus) "success".data,
                         statusText := (jinjaStr d kstatus).map Char.toUpper,
                         postsCountText := jinjaStr d kcount,
                         pageSizeText := kb ++ "KB".data,
                         postItems := items,
                         morePosts := if 20 < n then some (n - 20) else none }

/-- Rendering of MARKDOWN_TEMPLATE with `**d`; `none` means a raised
exception (the `self` collision, the division, `posts[:10]`, each
`post[:200]`). -/
def renderMd (d : Fields) : Option MdReport :=
  if (getD d kself).isSome then none else
  match pyDivRound1 (getD d khtml) with
  | none => none
  | some kb =>
      match sliceOpt (getD d kposts) 10 with
      | none => none
      | some ps =>
          match renderPosts 200 ps with
          | none => none
          | some items =>
              some { date := jinjaStr d kdate,
                     url := jinjaStr d kurl,
                     statusText := jinjaStr d kstatus,
                     postsCountText := jinjaStr d kcount,
                     pageSizeText := kb ++ " KB".data,
                     scraped_at := jinjaStr d kscraped,
                     postItems := items }

/-- The Reporter's pure rendering step on a loaded JSON object: apply the
defaults, render HTML, then render Markdown.  `none` means the Python code
raises. -/
def renderBoth (date : Str) (d : Fields) : Option (HtmlReport × MdReport) :=
  let dd := withDefaults date d
  match renderHtml dd with
  | none => none
  | some h =>
      match renderMd dd with
      | none => none
      | some m => some (h, m)

/-!
## Filesystem model for generate_reports (lines 99-135)
-/

/-- The filesystem state generate_reports can observe or change:
whether `reports/` exists, the parsed content of `output/latest.json`
(`none` when the file is absent; non-object JSON is outside every claim),
and the two report files. -/
structure FSState where
  reportsDirExists : Bool
  latest : Option Fields
  indexHtml : Option HtmlReport
  reportMd : Option MdReport

/-- generate_reports: `REPORTS_DIR.mkdir(exist_ok=True)`, then the existence
check on `output/latest.json` (early return when absent), then render and
write `reports/index.html`, then render and write `reports/report.md`.
The Bool is true when an exception escapes (a render raised); a file is
written only when its rendering succeeded, in program order. -/
def generate_reports (date : Str) (fs : FSState) : FSState × Bool :=
  let fs1 := { fs with reportsDirExists := true }
  match fs.latest with
  | none => (fs1, false)
  | some d =>
      let dd := withDefaults date d
      match renderHtml dd with
      | none => (fs1, true)
      | some h =>
          let fs2 := { fs1 with indexHtml := some h }
          match renderMd dd with
          | none => (fs2, true)
          | some m => ({ fs2 with reportMd := some m }, false)

/-!
## Well-typed inputs for rendering
-/

/-- Values on which `x / 1024` does not raise: bools, and numbers below the
`OverflowError` threshold of `int / 1024` (see `divOverflowBound`). -/
def numericOk : Option Json → Bool
  | none => true
  | some (.num n) => decide (n.natAbs < divOverflowBound)
  | some (.bool _) => true
  | _ => false

/-- Entries on which `post[:n]` does not raise: strings and lists. -/
def entryOk : Json → Bool
  | .str _ => true
  | .arr _ => true
  | _ => false

/-- A `posts` value the templates can render: absent (defaulted to `[]`),
a string, or a list whose first 20 entries (the only ones the templates
touch) are strings or lists. -/
def postsOk : Option Json → Bool
  | none => true
  | some (.str _) => true
  | some (.arr xs) => (xs.take 20).all entryOk
  | _ => false

/-- Input objects on which rendering cannot raise: no `self` key, and the
`html_length` and `posts` fields (when present) have renderable types. -/
def wellTypedInput (d : Fields) : Bool :=
  (getD d kself).isNone && numericOk (getD d khtml) && postsOk (getD d kposts)

/-- The spec's C7 example input record. -/
def c7Input : Fields :=
  [(kstatus, .str "success".data),
   (kposts, .arr [.str (List.replicate 600 'A')]),
   (kcount, .num 1),
   (khtml, .num 2048),
   (kscraped, .str "2024-01-01T00:00:00Z".data)]

/-- A record whose `posts` field is a number: `posts[:20]` raises TypeError. -/
def c3BadInput : Fields := [(kposts, Json.num 5)]

/-!
## Lookup lemmas for the defaulting step
-/

theorem getD_setField_eq (d : Fields) (k : Str) (v : Json) :
    getD (setField d k v) k = some v := by
  induction d with
  | nil => simp [setField, getD]
  | cons p rest ih =>
      obtain ⟨k0, v0⟩ := p
      by_cases h : k0 = k
      · simp [setField, getD, h]
      · simp [setField, getD, h, ih]

theorem getD_setField_ne (d : Fields) (k : Str) (v : Json) (k2 : Str)
    (h : k2 ≠ k) : getD (setField d k v) k2 = getD d k2 := by
  induction d with
  | nil => simp [setField, getD, Ne.symm h]
  | cons p rest ih =>
      obtain ⟨k0, v0⟩ := p
      by_cases h0 : k0 = k
      · subst h0
        simp [setField, getD, Ne.symm h]
      · by_cases h2 : k0 = k2
        · subst h2
          simp [setField, getD, h0]
        · simp [setField, getD, h0, h2, ih]

theorem getD_append_sing_ne (d : Fields) (k : Str) (v : Json) (k2 : Str)
    (h : k2 ≠ k) : getD (d ++ [(k, v)]) k2 = getD d k2 := by
  induction d with
  | nil => simp [getD, Ne.symm h]
  | cons p rest ih =>
      obtain ⟨k0, v0⟩ := p
      by_cases h2 : k0 = k2
      · simp [getD, h2]
      · simp [getD, h2, ih]

theorem getD_append_sing_none (d : Fields) (k : Str) (v : Json)
    (h : getD d k = none) : getD (d ++ [(k, v)]) k = some v := by
  induction d with
  | nil => simp [getD]
  | cons p rest ih =>
      obtain ⟨k0, v0⟩ := p
      by_cases h2 : k0 = k
      · simp [getD, h2] at h
      · simp [getD, h2] at h ⊢
        exact ih h

theorem getD_setdefault_ne (d : Fields) (k : Str) (v : Json) (k2 : Str)
    (h : k2 ≠ k) : getD (setdefault d k v) k2 = getD d k2 := by
  unfold setdefault
  cases hg : getD d k with
  | none => simpa using getD_append_sing_ne d k v k2 h
  | some w => rfl

theorem getD_setdefault_eq (d : Fields) (k : Str) (v : Json) :
    getD (setdefault d k v) k = some ((getD d k).getD v) := by
  unfold setdefault
  cases hg : getD d k with
  | none => simpa using getD_append_sing_none d k v hg
  | some w => simp [hg]

/-- After the defaulting step, `self` is looked up unchanged. -/
theorem getD_withDefaults_self (date : Str) (d : Fields) :
    getD (withDefaults date d) kself = getD d kself := by
  unfold withDefaults
  rw [getD_setdefault_ne _ _ _ _ (by decide),
      getD_setdefault_ne _ _ _ _ (by decide),
      getD_setdefault_ne _ _ _ _ (by decide),
      getD_setdefault_ne _ _ _ _ (by decide),
      getD_setField_ne _ _ _ _ (by decide)]

/-- After the defaulting step, `html_length` is the original value or 0. -/
theorem getD_withDefaults_html (date : Str) (d : Fields) :
    getD (withDefaults date d) khtml = some ((getD d khtml).getD (.num 0)) := by
  unfold withDefaults
  rw [getD_setdefault_ne _ _ _ _ (by decide),
      getD_setdefault_eq,
      getD_setdefault_ne _ _ _ _ (by decide),
      getD_setdefault_ne _ _ _ _ (by decide),
      getD_setField_ne _ _ _ _ (by decide)]

/-- After the defaulting step, `posts` is the original value or `[]`. -/
theorem getD_withDefaults_posts (date : Str) (d : Fields) :
    getD (withDefaults date d) kposts = some ((getD d kposts).getD (.arr [])) := by
  unfold withDefaults
  rw [getD_setdefault_ne _ _ _ _ (by decide),
      getD_setdefault_ne _ _ _ _ (by decide),
      getD_setdefault_ne _ _ _ _ (by decide),
      getD_setdefault_eq,
      getD_setField_ne _ _ _ _ (by decide)]

/-- `truncPost` succeeds on renderable entries. -/
theorem truncPost_isSome (lim : Nat) (p : Json) (h : entryOk p = true) :
    ∃ s, truncPost lim p = some s := by
  cases p <;> simp [entryOk] at h <;> simp [truncPost]

/-- The post loop succeeds when every entry is renderable. -/
theorem renderPosts_isSome (lim : Nat) (l : List Json)
    (h : l.all entryOk = true) : ∃ items, renderPosts lim l = some items := by
  induction l with
  | nil => exact ⟨[], rfl⟩
  | cons p rest ih =>
      rw [List.all_cons, Bool.and_eq_true] at h
      obtain ⟨s, hs⟩ := truncPost_isSome lim p h.1
      obtain ⟨items, hi⟩ := ih h.2
      exact ⟨s :: items, by simp [renderPosts, hs, hi]⟩

/-- `all` restricted to a shorter take. -/
theorem all_take_of_all_take (xs : List Json) (m n : Nat) (hmn : m ≤ n)
    (h : (xs.take n).all entryOk = true) : (xs.take m).all entryOk = true := by
  rw [List.all_eq_true] at h ⊢
  intro x hx
  apply h
  have : xs.take m = (xs.take n).take m := by
    rw [List.take_take, Nat.min_eq_left hmn]
  rw [this] at hx
  exact List.take_subset m _ hx

/-- The division step succeeds on a defaulted numeric field. -/
theorem pyDivRound1_default (o : Option Json) (h : numericOk o = true) :
    ∃ kb, pyDivRound1 (some (o.getD (Json.num 0))) = some kb := by
  cases o with
  | none => exact ⟨round1KB 0, by decide⟩
  | some v =>
      cases v with
      | num n =>
          simp only [numericOk, decide_eq_true_eq] at h
          exact ⟨round1KB n, by simp [pyDivRound1, h]⟩
      | bool b => exact ⟨round1KB (if b then 1 else 0), rfl⟩
      | null => simp [numericOk] at h
      | str s => simp [numericOk] at h
      | arr xs => simp [numericOk] at h
      | obj fs => simp [numericOk] at h

/-- Characters of a sliced string iterate as renderable 1-character strings. -/
theorem all_entryOk_of_str (s : Str) (n : Nat) :
    ((s.take n).map fun c => Json.str [c]).all entryOk = true := by
  rw [List.all_eq_true]
  intro x hx
  rcases List.mem_map.mp hx with ⟨c, _, rfl⟩
  rfl

/-- A defaulted renderable `posts` field slices and renders at both template
widths, and supports `| length`. -/
theorem postsRender_default (o : Option Json) (h : postsOk o = true) :
    (∃ ps, sliceOpt (some (o.getD (Json.arr []))) 20 = some ps ∧
      ∃ items, renderPosts 300 ps = some items) ∧
    (∃ ps, sliceOpt (some (o.getD (Json.arr []))) 10 = some ps ∧
      ∃ items, renderPosts 200 ps = some items) ∧
    (∃ n, lenOpt (some (o.getD (Json.arr []))) = some n) := by
  cases o with
  | none => exact ⟨⟨[], rfl, [], rfl⟩, ⟨[], rfl, [], rfl⟩, 0, rfl⟩
  | some v =>
      cases v with
      | str s =>
          refine ⟨⟨_, rfl, ?_⟩, ⟨_, rfl, ?_⟩, s.length, rfl⟩
          · exact renderPosts_isSome 300 _ (all_entryOk_of_str s 20)
          · exact renderPosts_isSome 200 _ (all_entryOk_of_str s 10)
      | arr xs =>
          simp only [postsOk] at h
          refine ⟨⟨_, rfl, ?_⟩, ⟨_, rfl, ?_⟩, xs.length, rfl⟩
          · exact renderPosts_isSome 300 _ h
          · exact renderPosts_isSome 200 _
              (all_take_of_all_take xs 10 20 (by omega) h)
      | null => simp [postsOk] at h
      | bool b => simp [postsOk] at h
      | num n => simp [postsOk] at h
      | obj fs => simp [postsOk] at h

/-- The HTML template renders whenever each raise point is avoided. -/
theorem renderHtml_isSome (d : Fields)
    (h1 : getD d kself = none)
    (h2 : ∃ kb, pyDivRound1 (getD d khtml) = some kb)
    (h3 : ∃ ps, sliceOpt (getD d kposts) 20 = some ps ∧
      ∃ items, renderPosts 300 ps = some items)
    (h4 : ∃ n, lenOpt (getD d kposts) = some n) :
    (renderHtml d).isSome := by
  obtain ⟨kb, hkb⟩ := h2
  obtain ⟨ps, hps, items, hitems⟩ := h3
  obtain ⟨n, hn⟩ := h4
  simp [renderHtml, h1, hkb, hps, hitems, hn]

/-- The Markdown template renders whenever each raise point is avoided. -/
theorem renderMd_isSome (d : Fields)
    (h1 : getD d kself = none)
    (h2 : ∃ kb, pyDivRound1 (getD d khtml) = some kb)
    (h3 : ∃ ps, sliceOpt (getD d kposts) 10 = some ps ∧
      ∃ items, renderPosts 200 ps = some items) :
    (renderMd d).isSome := by
  obtain ⟨kb, hkb⟩ := h2
  obtain ⟨ps, hps, items, hitems⟩ := h3
  simp [renderMd, h1, hkb, hps, hitems]

/-!
## Theorems about the Reporter
-/

/-- Counterexample to claim C3 as stated: rendering is not total on every
JSON object.  For the object with field `posts = 5`, `posts[:20]` in the HTML
template raises `TypeError` (an int is not subscriptable); the defaults do not
repair a present field of the wrong type. -/
theorem c3_counterexample : renderBoth "d".data c3BadInput = none := rfl

/-- Claim C3 amended: rendering never raises on a JSON object provided its
present fields are of renderable type: `html_length` (if present) a bool or a
number whose magnitude stays below the `int / 1024` overflow threshold
`2 ^ 1034 - 2 ^ 980` (about 1.8e311, see `divOverflowBound`), `posts` (if
present) a string or a list whose first 20 entries are strings or lists, and
there is no key named `self` (which would collide with the bound method
argument of `Template.render`).  Absent fields are defaulted to `posts=[]`,
`posts_count=0`, `html_length=0`, `status="unknown"`; in particular the empty
object renders. -/
theorem c3_amended (date : Str) (d : Fields) (hw : wellTypedInput d = true) :
    (renderBoth date d).isSome := by
  unfold wellTypedInput at hw
  rw [Bool.and_eq_true, Bool.and_eq_true] at hw
  obtain ⟨⟨hself, hnum⟩, hposts⟩ := hw
  have hS : getD (withDefaults date d) kself = none := by
    rw [getD_withDefaults_self]
    exact Option.isNone_iff_eq_none.mp hself
  have hdiv : ∃ kb, pyDivRound1 (getD (withDefaults date d) khtml) = some kb := by
    rw [getD_withDefaults_html]
    exact pyDivRound1_default _ hnum
  have hpr := postsRender_default _ hposts
  have hH : (renderHtml (withDefaults date d)).isSome := by
    apply renderHtml_isSome _ hS hdiv
    · rw [getD_withDefaults_posts]
      exact hpr.1
    · rw [getD_withDefaults_posts]
      exact hpr.2.2
  have hM : (renderMd (withDefaults date d)).isSome := by
    apply renderMd_isSome _ hS hdiv
    rw [getD_withDefaults_posts]
    exact hpr.2.1
  obtain ⟨hv, hveq⟩ := Option.isSome_iff_exists.mp hH
  obtain ⟨mv, hmeq⟩ := Option.isSome_iff_exists.mp hM
  simp [renderBoth, hveq, hmeq]

/-- Witness for C3 (amended): the empty object `\x7b\x7d` renders. -/
theorem c3_amended_witness : (renderBoth "d2".data []).isSome :=
  c3_amended "d2".data [] (by decide)

set_option maxRecDepth 20000 in
/-- Claim C7: on the spec's example record (one post of 600 A's,
`html_length = 2048`), the HTML post list holds exactly 300 A's followed by
the ellipsis marker, and the page-size stat is "2.0KB". -/
theorem c7_example :
    (renderBoth "2024-06-01 00:00".data c7Input).map
        (fun r => (r.1.postItems, r.1.pageSizeText)) =
      some ([List.replicate 300 'A' ++ "...".data], "2.0KB".data) := by
  decide

/-- A filesystem with no `reports/` directory and no `output/latest.json`. -/
def fsEmpty : FSState :=
  { reportsDirExists := false, latest := none, indexHtml := none,
    reportMd := none }

/-- Claim C9: when `output/latest.json` is absent, the Reporter writes neither
report file and completes without raising. -/
theorem c9_absent_input (date : Str) (fs : FSState) (h : fs.latest = none) :
    (generate_reports date fs).1.indexHtml = fs.indexHtml ∧
    (generate_reports date fs).1.reportMd = fs.reportMd ∧
    (generate_reports date fs).2 = false := by
  simp [generate_reports, h]

/-- Witness for C9 on a concrete empty filesystem. -/
theorem c9_absent_input_witness :
    (generate_reports [] fsEmpty).1.indexHtml = fsEmpty.indexHtml ∧
    (generate_reports [] fsEmpty).1.reportMd = fsEmpty.reportMd ∧
    (generate_reports [] fsEmpty).2 = false :=
  c9_absent_input [] fsEmpty rfl

/-- Claim C10: on every invocation the `reports/` directory exists afterwards
(`mkdir(exist_ok=True)` runs before the input-existence check), and in the
absent-input case nothing else in the filesystem state changes. -/
theorem c10_reports_dir_frame (date : Str) (fs : FSState) :
    (generate_reports date fs).1.reportsDirExists = true ∧
    (fs.latest = none →
      (generate_reports date fs).1 = { fs with reportsDirExists := true }) := by
  constructor
  · unfold generate_reports
    cases hl : fs.latest with
    | none => rfl
    | some d =>
        simp only
        cases hh : renderHtml (withDefaults date d) with
        | none => rfl
        | some hR =>
            cases hm : renderMd (withDefaults date d) with
            | none => rfl
            | some mR => rfl
  · intro h
    simp [generate_reports, h]

/-- Witness for C10 on a concrete empty filesystem. -/
theorem c10_reports_dir_frame_witness :
    (generate_reports [] fsEmpty).1 = { fsEmpty with reportsDirExists := true } :=
  (c10_reports_dir_frame [] fsEmpty).2 rfl
